import Mathlib

/-
Verification of the conversion-and-lookup layer of the QSDsan web-app
backend (Flask service in front of external biomass process simulators).

The embedding models, directly from the Python source:
  - app/services/fermentation_service.py
      fermentation_convert_feedstock_kg_hr, fermentation_county
  - app/blueprints/fermentation.py
      fermentation_calc_data, fermentation_county_data
  - app/blueprints/htl.py
      htl_calc_data

Numbers are modelled by rationals. Python exceptions are modelled by an
explicit error type; Flask handlers become total functions from query
parameters to HTTP responses (or to an Except when an exception can
escape the handler uncaught). The external simulation package
(fermentation_calc / htl_calc bodies) and Python float parsing are
opaque collaborators, so they are parameters of the handlers.
-/

namespace QSDsan

/-- A Python runtime value as far as the service layer can distinguish it:
a number (int or float), a string, or anything else. -/
inductive PyVal where
  | num (q : ℚ)
  | str (s : String)
  | other
deriving DecidableEq, Repr

/-- Python exceptions distinguished by the service layer. -/
inductive PyExn where
  | typeError (msg : String)
  | valueError (msg : String)
  | keyError (msg : String)
  | otherError (msg : String)
deriving DecidableEq, Repr

/-- The message carried by an exception, as str(e) produces it. -/
def PyExn.msg : PyExn → String
  | .typeError m => m
  | .valueError m => m
  | .keyError m => m
  | .otherError m => m

/-- A JSON scalar occurring in a response body. -/
inductive Json where
  | jnum (q : ℚ)
  | jstr (s : String)
deriving DecidableEq, Repr

/-- An HTTP response: status code plus JSON object body (field list). -/
structure HttpResponse where
  status : ℕ
  body : List (String × Json)
deriving DecidableEq, Repr

/-- Model of the Python str.lower() method (exact on ASCII data, which is
all the service compares): lower-case every character. -/
def pyLower (s : String) : String := ⟨s.data.map Char.toLower⟩

/-- Whether a PyVal is a number (isinstance(x, (int, float))). -/
def PyVal.isNum : PyVal → Bool
  | .num _ => true
  | _ => false

/-- Whether a PyVal is a string (isinstance(x, str)). -/
def PyVal.isStr : PyVal → Bool
  | .str _ => true
  | _ => false

/-- The unit set the fermentation blueprint validates against. -/
def fermentationUnits : List String := ["kghr", "tons", "tonnes"]

/-- The unit set the htl blueprint validates against. -/
def htlUnits : List String := ["kghr", "tons", "tonnes", "mgd", "m3d"]

/-- Embedding of fermentation_convert_feedstock_kg_hr from
app/services/fermentation_service.py: type-checks the feedstock and the
unit, then converts via unit.lower() against kghr, tons, tonnes. -/
def fermentation_convert_feedstock_kg_hr (feedstock : PyVal) (unit : PyVal) :
    Except PyExn ℚ :=
  match feedstock with
  | .num v =>
    match unit with
    | .str u =>
      if pyLower u = "kghr" then .ok v
      else if pyLower u = "tons" then .ok (v * (907185 / 1000) / 8760)
      else if pyLower u = "tonnes" then .ok (v * 1000 / 8760)
      else .error (.valueError "Invalid unit")
    | _ => .error (.typeError "Unit should be a string")
  | _ => .error (.typeError "Feedstock should be a number")

/-- Embedding of the fermentation_calc_data view function from
app/blueprints/fermentation.py. Opaque collaborators are parameters:
parseFloat models Python float() applied to the raw query string (none
models a ValueError), and calc models fermentation_calc, whose body drives
the external simulator and may raise. The two query parameters are the raw
values of mass and unit (none when absent). Every exception inside the try
block is caught, so the handler is a total function into HttpResponse. -/
def fermentation_calc_data
    (parseFloat : String → Option ℚ)
    (fcalc : ℚ → Except PyExn (ℚ × ℚ × ℚ))
    (massArg unitArg : Option String) : HttpResponse :=
  match massArg with
  | none => ⟨400, [("error", .jstr "Mass is required")]⟩
  | some ms =>
    match parseFloat ms with
    | none => ⟨400, [("error", .jstr "Mass must be a number")]⟩
    | some mass =>
      let unit := unitArg.getD "kghr"
      if unit ∈ fermentationUnits then
        match fermentation_convert_feedstock_kg_hr (.num mass) (.str unit) with
        | .error e => ⟨500, [("error", .jstr e.msg)]⟩
        | .ok kg_hr =>
          match fcalc kg_hr with
          | .error e => ⟨500, [("error", .jstr e.msg)]⟩
          | .ok (ethanol, price, gwp) =>
            ⟨200, [("mass", .jnum kg_hr), ("ethanol", .jnum ethanol),
                   ("price", .jnum price), ("gwp", .jnum gwp)]⟩
      else ⟨422, [("error", .jstr "Unit must be one of kghr, tons, tonnes")]⟩

/-- Embedding of the htl_calc_data view function from
app/blueprints/htl.py. The missing htl_service.py collaborators are
parameters: convert models htl_convert_sludge_mass_kg_hr (the spec says a
pure linear conversion for valid units) and htlCalc models htl_calc. The
view calls htl_calc twice; htlCalc takes the invocation index (0 for the
call inside the try block, 1 for the call in the success branch) so the
two calls against the stateful external simulator can differ. Returning
a Python None (falsy result) is modelled by Except.ok none. Only the
first call sits in a try block that catches TypeError alone, so other
exceptions escape the handler: the embedding returns Except.error for an
exception that leaves the view function unhandled. -/
def htl_calc_data
    (parseFloat : String → Option ℚ)
    (convert : ℚ → String → ℚ)
    (htlCalc : ℕ → ℚ → Except PyExn (Option (ℚ × ℚ)))
    (sludgeArg unitArg : Option String) : Except PyExn HttpResponse :=
  match sludgeArg with
  | none => .ok ⟨400, [("error", .jstr "Sludge not provided")]⟩
  | some ss =>
    match parseFloat ss with
    | none => .ok ⟨400, [("error", .jstr "Sludge should be a number")]⟩
    | some sludge0 =>
      let unit := unitArg.getD "kghr"
      if unit ∈ htlUnits then
        let sludge := convert sludge0 unit
        match htlCalc 0 sludge with
        | .error (.typeError m) => .ok ⟨500, [("error", .jstr m)]⟩
        | .error e => .error e
        | .ok result =>
          if result.isSome then
            match htlCalc 1 sludge with
            | .error e => .error e
            | .ok none => .error (.typeError "cannot unpack non-iterable NoneType object")
            | .ok (some (price, gwp)) =>
              .ok ⟨200, [("sludge", .jnum sludge), ("price", .jnum price),
                         ("gwp", .jnum gwp)]⟩
          else .ok ⟨500, [("error", .jstr "Unexpected error")]⟩
      else .ok ⟨422, [("error", .jstr "Invalid unit")]⟩

/-- The loaded fermentation reference table (pandas DataFrame read from
fermentation_data.csv): the County column, plus the two numeric columns
the service reads. A column is none when absent from the CSV, which makes
pandas raise KeyError on access. -/
structure StateData where
  counties : List String
  ligno : Option (List ℚ)
  kgph : Option (List ℚ)
deriving DecidableEq, Repr

/-- Python int() applied to a float: truncation toward zero. -/
def truncQ (q : ℚ) : ℤ := if 0 ≤ q then ⌊q⌋ else ⌈q⌉

/-- Embedding of fermentation_county from
app/services/fermentation_service.py. The external fermentation_calc is
the parameter fcalc. Matching follows the source: membership and
name_final via case-insensitive comparison on the County column, then the
two numeric columns are read at the first row whose County equals
name_final exactly; a missing column raises KeyError. The otherError
branches model exceptions the source does not map (an unreachable find
failure, and an IndexError on the Lignocellulose read). -/
def fermentation_county
    (fcalc : ℚ → Except PyExn (ℚ × ℚ × ℚ))
    (name : PyVal) (state_data : StateData) :
    Except PyExn (String × ℤ × ℚ × ℚ × ℚ) :=
  match name with
  | .str n =>
    match state_data.counties.find? (fun c => pyLower c = pyLower n) with
    | none => .error (.valueError "County not found in the state data")
    | some name_final =>
      match state_data.counties.findIdx? (fun c => c = name_final) with
      | none => .error (.otherError "unreachable: name_final is drawn from the County column")
      | some i =>
        match state_data.ligno with
        | none => .error (.keyError "Column Lignocellulose (dry tons) not found in the dataset.")
        | some lcol =>
          match lcol[i]? with
          | none => .error (.otherError "IndexError")
          | some ltons =>
            let dry_tonnes := truncQ ltons
            match state_data.kgph with
            | none => .error (.keyError "Column Kilogram/hr not found in the dataset.")
            | some kcol =>
              match kcol[i]? with
              | none => .error (.valueError "Value for Kilogram/hr not found for the county")
              | some kg_per_hr =>
                match fcalc kg_per_hr with
                | .error e => .error e
                | .ok (ethanol, price, gwp) =>
                  .ok (name_final, dry_tonnes, ethanol, price, gwp)
  | _ => .error (.typeError "County should be a string")

/-- Embedding of the fermentation_county_data view function from
app/blueprints/fermentation.py. A missing county_name parameter and an
empty string are both falsy in Python, so both take the 400 branch. The
try block around fermentation_county catches ValueError as 404 and every
other exception as 500, so the handler is total. -/
def fermentation_county_data
    (fcalc : ℚ → Except PyExn (ℚ × ℚ × ℚ))
    (state_data : StateData)
    (countyArg : Option String) : HttpResponse :=
  match countyArg with
  | none => ⟨400, [("error", .jstr "County name is required")]⟩
  | some cn =>
    if cn = "" then ⟨400, [("error", .jstr "County name is required")]⟩
    else
      match fermentation_county fcalc (.str cn) state_data with
      | .error (.valueError _) => ⟨404, [("error", .jstr "County not found")]⟩
      | .error e => ⟨500, [("error", .jstr e.msg)]⟩
      | .ok (nm, mass, ethanol, price, gwp) =>
        ⟨200, [("county_name", .jstr nm), ("mass", .jnum (mass : ℚ)),
               ("ethanol", .jnum ethanol), ("price", .jnum price),
               ("gwp", .jnum gwp)]⟩

/-- Concrete collaborators used to exhibit closed instances of the
theorems below. sampleParse models float() succeeding on the string 50. -/
def sampleParse : String → Option ℚ := fun s => if s = "50" then some 50 else none

/-- A concrete stand-in for fermentation_calc that always converges. -/
def sampleCalc3 : ℚ → Except PyExn (ℚ × ℚ × ℚ) := fun q => .ok (q, 2, 3)

/-- A concrete stand-in for htl_convert_sludge_mass_kg_hr. -/
def sampleConvert : ℚ → String → ℚ := fun q _ => q

/-- A concrete stand-in for htl_calc whose two invocations differ, to
expose which invocation a response is built from. -/
def sampleHtlCalc : ℕ → ℚ → Except PyExn (Option (ℚ × ℚ)) :=
  fun k _ => if k = 0 then .ok (some (100, 100)) else .ok (some (2, 3))

/-- A concrete reference table with two counties. -/
def sampleData : StateData :=
  { counties := ["Atlantic", "Cape May"]
    ligno := some [17, 0]
    kgph := some [40, 5] }

/-- C1: the fermentation unit normalizer is the identity on kghr, scales by
907.185 / 8760 for tons and by 1000 / 8760 for tonnes, and at value 100 the
tons and tonnes conversions are within 0.001 of 10.3556 and 11.4155
respectively; as a total Lean function it is pure and deterministic. -/
theorem C1_fermentation_normalizer (v : ℚ) :
    fermentation_convert_feedstock_kg_hr (.num v) (.str "kghr") = .ok v ∧
    fermentation_convert_feedstock_kg_hr (.num v) (.str "tons") =
      .ok (v * (907185 / 1000) / 8760) ∧
    fermentation_convert_feedstock_kg_hr (.num v) (.str "tonnes") =
      .ok (v * 1000 / 8760) ∧
    fermentation_convert_feedstock_kg_hr (.num 100) (.str "tons") =
      .ok (100 * (907185 / 1000) / 8760) ∧
    |100 * ((907185 : ℚ) / 1000) / 8760 - 103556 / 10000| < 1 / 1000 ∧
    fermentation_convert_feedstock_kg_hr (.num 100) (.str "tonnes") =
      .ok (100 * 1000 / 8760) ∧
    |100 * (1000 : ℚ) / 8760 - 114155 / 10000| < 1 / 1000 := by
  refine ⟨?_, ?_, ?_, ?_, ?_, ?_, ?_⟩
  case _ => simp only [fermentation_convert_feedstock_kg_hr]; rw [if_pos (by decide)]
  case _ =>
    simp only [fermentation_convert_feedstock_kg_hr]
    rw [if_neg (by decide), if_pos (by decide)]
  case _ =>
    simp only [fermentation_convert_feedstock_kg_hr]
    rw [if_neg (by decide), if_neg (by decide), if_pos (by decide)]
  case _ =>
    simp only [fermentation_convert_feedstock_kg_hr]
    rw [if_neg (by decide), if_pos (by decide)]
  case _ => rw [abs_lt]; constructor <;> norm_num
  case _ =>
    simp only [fermentation_convert_feedstock_kg_hr]
    rw [if_neg (by decide), if_neg (by decide), if_pos (by decide)]
  case _ => rw [abs_lt]; constructor <;> norm_num

/-- C7 counterexample: the unit TONS is not among the declared unit set
kghr, tons, tonnes, yet the normalizer converts it successfully instead of
failing with InvalidUnit, because it lower-cases the unit first. -/
theorem C7_counterexample :
    "TONS" ∉ fermentationUnits ∧
    fermentation_convert_feedstock_kg_hr (.num 1) (.str "TONS") =
      .ok (1 * (907185 / 1000) / 8760) := by
  constructor
  · decide
  · simp only [fermentation_convert_feedstock_kg_hr]
    rw [if_neg (by decide), if_pos (by decide)]

/-- C7 amended: the normalizer fails with TypeError exactly when the value
is not numeric or the unit is not a string, fails with ValueError exactly
when both are well typed but the lower-cased unit is outside the declared
set kghr, tons, tonnes, and returns normally exactly when both are well
typed and the lower-cased unit is in that set. -/
theorem C7_amended_normalizer_errors (v u : PyVal) :
    ((∃ m, fermentation_convert_feedstock_kg_hr v u = .error (.typeError m)) ↔
      (v.isNum = false ∨ u.isStr = false)) ∧
    ((∃ m, fermentation_convert_feedstock_kg_hr v u = .error (.valueError m)) ↔
      (∃ q s, v = .num q ∧ u = .str s ∧ pyLower s ∉ fermentationUnits)) ∧
    ((∃ r, fermentation_convert_feedstock_kg_hr v u = .ok r) ↔
      (∃ q s, v = .num q ∧ u = .str s ∧ pyLower s ∈ fermentationUnits)) := by
  cases v with
  | num q =>
    cases u with
    | str s =>
      by_cases h1 : pyLower s = "kghr" <;>
        by_cases h2 : pyLower s = "tons" <;>
          by_cases h3 : pyLower s = "tonnes" <;>
            simp [fermentation_convert_feedstock_kg_hr, PyVal.isNum, PyVal.isStr,
              fermentationUnits, h1, h2, h3]
    | num q2 =>
      simp [fermentation_convert_feedstock_kg_hr, PyVal.isNum, PyVal.isStr]
    | other =>
      simp [fermentation_convert_feedstock_kg_hr, PyVal.isNum, PyVal.isStr]
  | str s =>
    simp [fermentation_convert_feedstock_kg_hr, PyVal.isNum, PyVal.isStr]
  | other =>
    simp [fermentation_convert_feedstock_kg_hr, PyVal.isNum, PyVal.isStr]

/-- C7 amended witness: at value 1 and unit TONS the normalizer returns
normally, via the amended characterization. -/
theorem C7_amended_normalizer_errors_witness :
    ∃ r, fermentation_convert_feedstock_kg_hr (.num 1) (.str "TONS") = .ok r :=
  (C7_amended_normalizer_errors (.num 1) (.str "TONS")).2.2.mpr
    ⟨1, "TONS", rfl, rfl, by decide⟩

/-- C2 counterexample: a fully successful htl calc request yields a 200
envelope with exactly the three fields sludge, price, gwp: there is no
product-output field, so not every successful calc response carries all
four claimed fields. -/
theorem C2_counterexample :
    htl_calc_data sampleParse sampleConvert sampleHtlCalc (some "50") (some "kghr") =
      .ok ⟨200, [("sludge", .jnum 50), ("price", .jnum 2), ("gwp", .jnum 3)]⟩ ∧
    ([("sludge", Json.jnum 50), ("price", Json.jnum 2),
      ("gwp", Json.jnum 3)].map Prod.fst).length ≠ 4 := by
  exact ⟨by rfl, by decide⟩

/-- C2 amended: success is still all-or-nothing, but the field set depends
on the pathway: every 200 response of the fermentation calc endpoint has
exactly the four fields mass, ethanol, price, gwp, while every 200
response of the htl calc endpoint has exactly the three fields sludge,
price, gwp, with no product-output field. -/
theorem C2_success_envelope
    (pf : String → Option ℚ) (fcalc : ℚ → Except PyExn (ℚ × ℚ × ℚ))
    (conv : ℚ → String → ℚ) (hcalc : ℕ → ℚ → Except PyExn (Option (ℚ × ℚ)))
    (ma ua sa ub : Option String) (r s : HttpResponse)
    (hf : fermentation_calc_data pf fcalc ma ua = r) (hf200 : r.status = 200)
    (hh : htl_calc_data pf conv hcalc sa ub = .ok s) (hh200 : s.status = 200) :
    r.body.map Prod.fst = ["mass", "ethanol", "price", "gwp"] ∧
    s.body.map Prod.fst = ["sludge", "price", "gwp"] := by
  constructor
  · subst hf
    rcases ma with _ | ms
    · simp [fermentation_calc_data] at hf200
    · rcases hpf : pf ms with _ | mass
      · simp [fermentation_calc_data, hpf] at hf200
      · by_cases hu : (ua.getD "kghr") ∈ fermentationUnits
        · rcases hcv : fermentation_convert_feedstock_kg_hr (.num mass)
              (.str (ua.getD "kghr")) with e | kg
          · simp [fermentation_calc_data, hpf, hu, hcv] at hf200
          · rcases hfc : fcalc kg with e | ⟨a, b, c⟩
            · simp [fermentation_calc_data, hpf, hu, hcv, hfc] at hf200
            · simp [fermentation_calc_data, hpf, hu, hcv, hfc]
        · simp [fermentation_calc_data, hpf, hu] at hf200
  · rcases sa with _ | ss
    · simp [htl_calc_data] at hh
      rw [← hh] at hh200
      simp at hh200
    · rcases hpf : pf ss with _ | sl
      · simp [htl_calc_data, hpf] at hh
        rw [← hh] at hh200
        simp at hh200
      · by_cases hu : (ub.getD "kghr") ∈ htlUnits
        · rcases h0 : hcalc 0 (conv sl (ub.getD "kghr")) with e | res
          · rcases e with m | m | m | m
            · simp [htl_calc_data, hpf, hu, h0] at hh
              rw [← hh] at hh200
              simp at hh200
            · simp [htl_calc_data, hpf, hu, h0] at hh
            · simp [htl_calc_data, hpf, hu, h0] at hh
            · simp [htl_calc_data, hpf, hu, h0] at hh
          · rcases res with _ | ⟨p1, g1⟩
            · simp [htl_calc_data, hpf, hu, h0] at hh
              rw [← hh] at hh200
              simp at hh200
            · rcases h1 : hcalc 1 (conv sl (ub.getD "kghr")) with e | res1
              · simp [htl_calc_data, hpf, hu, h0, h1] at hh
              · rcases res1 with _ | ⟨p2, g2⟩
                · simp [htl_calc_data, hpf, hu, h0, h1] at hh
                · simp [htl_calc_data, hpf, hu, h0, h1] at hh
                  rw [← hh]
                  simp
        · simp [htl_calc_data, hpf, hu] at hh
          rw [← hh] at hh200
          simp at hh200

/-- C2 witness: concrete 200 responses of both calc endpoints, via the
amended envelope theorem. -/
theorem C2_success_envelope_witness :
    [("mass", Json.jnum 50), ("ethanol", Json.jnum 50), ("price", Json.jnum 2),
      ("gwp", Json.jnum 3)].map Prod.fst = ["mass", "ethanol", "price", "gwp"] ∧
    [("sludge", Json.jnum 50), ("price", Json.jnum 2),
      ("gwp", Json.jnum 3)].map Prod.fst = ["sludge", "price", "gwp"] :=
  C2_success_envelope sampleParse sampleCalc3 sampleConvert sampleHtlCalc
    (some "50") (some "kghr") (some "50") (some "kghr")
    ⟨200, [("mass", .jnum 50), ("ethanol", .jnum 50), ("price", .jnum 2),
           ("gwp", .jnum 3)]⟩
    ⟨200, [("sludge", .jnum 50), ("price", .jnum 2), ("gwp", .jnum 3)]⟩
    (by rfl) (by rfl) (by rfl) (by rfl)

/-- C3: request validation of both calc endpoints: a missing mass (or
sludge) parameter gives 400, a present but unparseable one gives 400, a
unit outside the declared unit set of the pathway gives 422 once the mass
parses, and an omitted unit behaves exactly as the explicit unit kghr. -/
theorem C3_calc_validation
    (pf : String → Option ℚ) (fcalc : ℚ → Except PyExn (ℚ × ℚ × ℚ))
    (conv : ℚ → String → ℚ) (hcalc : ℕ → ℚ → Except PyExn (Option (ℚ × ℚ)))
    (ua ub ma : Option String) (sBad sGood uBad : String) (q : ℚ)
    (hbad : pf sBad = none) (hgood : pf sGood = some q)
    (hu1 : uBad ∉ fermentationUnits) (hu2 : uBad ∉ htlUnits) :
    (fermentation_calc_data pf fcalc none ua).status = 400 ∧
    (fermentation_calc_data pf fcalc (some sBad) ua).status = 400 ∧
    (fermentation_calc_data pf fcalc (some sGood) (some uBad)).status = 422 ∧
    fermentation_calc_data pf fcalc ma none =
      fermentation_calc_data pf fcalc ma (some "kghr") ∧
    htl_calc_data pf conv hcalc none ub =
      .ok ⟨400, [("error", .jstr "Sludge not provided")]⟩ ∧
    htl_calc_data pf conv hcalc (some sBad) ub =
      .ok ⟨400, [("error", .jstr "Sludge should be a number")]⟩ ∧
    htl_calc_data pf conv hcalc (some sGood) (some uBad) =
      .ok ⟨422, [("error", .jstr "Invalid unit")]⟩ ∧
    htl_calc_data pf conv hcalc ma none =
      htl_calc_data pf conv hcalc ma (some "kghr") := by
  refine ⟨?_, ?_, ?_, ?_, ?_, ?_, ?_, ?_⟩
  · simp [fermentation_calc_data]
  · simp [fermentation_calc_data, hbad]
  · simp [fermentation_calc_data, hgood, hu1]
  · cases ma with
    | none => rfl
    | some ms => cases hp : pf ms <;> simp [fermentation_calc_data, hp]
  · simp [htl_calc_data]
  · simp [htl_calc_data, hbad]
  · simp [htl_calc_data, hgood, hu2]
  · cases ma with
    | none => rfl
    | some ms => cases hp : pf ms <;> simp [htl_calc_data, hp]

/-- C3 witness: validation outcomes at concrete requests, via the
validation theorem. -/
theorem C3_calc_validation_witness :
    (fermentation_calc_data sampleParse sampleCalc3 none (some "bogus")).status = 400 ∧
    (fermentation_calc_data sampleParse sampleCalc3 (some "x") (some "bogus")).status = 400 ∧
    (fermentation_calc_data sampleParse sampleCalc3 (some "50") (some "bogus")).status = 422 ∧
    fermentation_calc_data sampleParse sampleCalc3 (some "50") none =
      fermentation_calc_data sampleParse sampleCalc3 (some "50") (some "kghr") ∧
    htl_calc_data sampleParse sampleConvert sampleHtlCalc none (some "bogus") =
      .ok ⟨400, [("error", .jstr "Sludge not provided")]⟩ ∧
    htl_calc_data sampleParse sampleConvert sampleHtlCalc (some "x") (some "bogus") =
      .ok ⟨400, [("error", .jstr "Sludge should be a number")]⟩ ∧
    htl_calc_data sampleParse sampleConvert sampleHtlCalc (some "50") (some "bogus") =
      .ok ⟨422, [("error", .jstr "Invalid unit")]⟩ ∧
    htl_calc_data sampleParse sampleConvert sampleHtlCalc (some "50") none =
      htl_calc_data sampleParse sampleConvert sampleHtlCalc (some "50") (some "kghr") :=
  C3_calc_validation sampleParse sampleCalc3 sampleConvert sampleHtlCalc
    (some "bogus") (some "bogus") (some "50") "x" "50" "bogus" 50
    (by rfl) (by rfl) (by decide) (by decide)

/-- Introduction form for a successful county lookup: with a matching
county, both columns present and the external calculation converging, the
service returns the canonical name, the truncated Lignocellulose value
and the three simulation outputs obtained at the Kilogram/hr value. -/
lemma fermentation_county_ok_of
    (fcalc : ℚ → Except PyExn (ℚ × ℚ × ℚ)) (sd : StateData) (n nm : String)
    (i : ℕ) (lcol kcol : List ℚ) (lt kq e p g : ℚ)
    (hfind : sd.counties.find? (fun c => pyLower c = pyLower n) = some nm)
    (hidx : sd.counties.findIdx? (fun c => c = nm) = some i)
    (hlig : sd.ligno = some lcol) (hlt : lcol[i]? = some lt)
    (hkg : sd.kgph = some kcol) (hkq : kcol[i]? = some kq)
    (hfc : fcalc kq = .ok (e, p, g)) :
    fermentation_county fcalc (.str n) sd = .ok (nm, truncQ lt, e, p, g) := by
  simp [fermentation_county, hfind, hidx, hlig, hlt, hkg, hkq, hfc]

/-- Inversion of a successful county lookup: the returned name is the
first case-insensitive match of the County column, the mass is the
truncated Lignocellulose value of its row, and the three outputs come
from the external calculation at the Kilogram/hr value of that row. -/
lemma fermentation_county_ok_inv
    (fcalc : ℚ → Except PyExn (ℚ × ℚ × ℚ)) (sd : StateData) (n nm : String)
    (dt : ℤ) (e p g : ℚ)
    (h : fermentation_county fcalc (.str n) sd = .ok (nm, dt, e, p, g)) :
    sd.counties.find? (fun c => pyLower c = pyLower n) = some nm ∧
    ∃ i lcol lt kcol kq,
      sd.counties.findIdx? (fun c => c = nm) = some i ∧
      sd.ligno = some lcol ∧ lcol[i]? = some lt ∧ dt = truncQ lt ∧
      sd.kgph = some kcol ∧ kcol[i]? = some kq ∧ fcalc kq = .ok (e, p, g) := by
  rcases hfind : sd.counties.find? (fun c => pyLower c = pyLower n) with _ | nm0
  · simp [fermentation_county, hfind] at h
  rcases hidx : sd.counties.findIdx? (fun c => c = nm0) with _ | i
  · simp [fermentation_county, hfind, hidx] at h
  rcases hlig : sd.ligno with _ | lcol
  · simp [fermentation_county, hfind, hidx, hlig] at h
  rcases hlt : lcol[i]? with _ | lt
  · simp [fermentation_county, hfind, hidx, hlig, hlt] at h
  rcases hkg : sd.kgph with _ | kcol
  · simp [fermentation_county, hfind, hidx, hlig, hlt, hkg] at h
  rcases hkq : kcol[i]? with _ | kq
  · simp [fermentation_county, hfind, hidx, hlig, hlt, hkg, hkq] at h
  rcases hfc : fcalc kq with ex | ⟨e0, p0, g0⟩
  · simp [fermentation_county, hfind, hidx, hlig, hlt, hkg, hkq, hfc] at h
  · simp only [fermentation_county, hfind, hidx, hlig, hlt, hkg, hkq, hfc] at h
    simp only [Except.ok.injEq, Prod.mk.injEq] at h
    obtain ⟨h1, h2, h3, h4, h5⟩ := h
    subst h1 h2 h3 h4 h5
    exact ⟨rfl, i, lcol, lt, kcol, kq, hidx, rfl, hlt, rfl, rfl, hkq, hfc⟩

/-- C4: county resolution is case-insensitive: two names with the same
lower-casing resolve to the identical record, and a successful resolution
returns the canonical originally-cased name (the first case-insensitive
match of the County column) together with the quantity fields of the row
of that name. -/
theorem C4_county_case_insensitive
    (fcalc : ℚ → Except PyExn (ℚ × ℚ × ℚ)) (sd : StateData) (n1 n2 : String)
    (hcase : pyLower n1 = pyLower n2)
    (hmatch : ∃ c ∈ sd.counties, pyLower c = pyLower n1) :
    fermentation_county fcalc (.str n1) sd = fermentation_county fcalc (.str n2) sd ∧
    ∀ nm dt e p g, fermentation_county fcalc (.str n1) sd = .ok (nm, dt, e, p, g) →
      nm ∈ sd.counties ∧ pyLower nm = pyLower n1 ∧
      ∃ i lcol lt kcol kq,
        sd.counties.findIdx? (fun c => c = nm) = some i ∧
        sd.ligno = some lcol ∧ lcol[i]? = some lt ∧ dt = truncQ lt ∧
        sd.kgph = some kcol ∧ kcol[i]? = some kq ∧ fcalc kq = .ok (e, p, g) := by
  obtain ⟨c0, hc0, hcl⟩ := hmatch
  constructor
  · simp only [fermentation_county, hcase]
  · intro nm dt e p g h
    obtain ⟨hfind, rest⟩ := fermentation_county_ok_inv fcalc sd n1 nm dt e p g h
    refine ⟨List.mem_of_find?_eq_some hfind, ?_, rest⟩
    simpa using List.find?_some hfind

/-- C4 witness: in a concrete table, cape may and Cape May resolve to the
identical record, via the case-insensitivity theorem, and the resolved
record carries the canonical name Cape May. -/
theorem C4_county_case_insensitive_witness :
    fermentation_county sampleCalc3 (.str "cape may") sampleData =
      fermentation_county sampleCalc3 (.str "Cape May") sampleData ∧
    fermentation_county sampleCalc3 (.str "cape may") sampleData =
      .ok ("Cape May", truncQ 0, 5, 2, 3) :=
  ⟨(C4_county_case_insensitive sampleCalc3 sampleData "cape may" "Cape May"
      (by decide) ⟨"Cape May", by decide, by decide⟩).1,
    by rfl⟩

/-- C5: an unknown county name (nonempty, so that the endpoint does not
treat it as a missing parameter) makes fermentation_county fail with
ValueError, and the county endpoint turns exactly that into a 404 County
not found envelope; the handler catches every other exception as well, so
no request ends in an unhandled exception. -/
theorem C5_unknown_county_not_found
    (fcalc : ℚ → Except PyExn (ℚ × ℚ × ℚ)) (sd : StateData) (n : String)
    (hne : n ≠ "")
    (hnomatch : ∀ c ∈ sd.counties, pyLower c ≠ pyLower n) :
    fermentation_county fcalc (.str n) sd =
      .error (.valueError "County not found in the state data") ∧
    fermentation_county_data fcalc sd (some n) =
      ⟨404, [("error", .jstr "County not found")]⟩ := by
  have hfind : sd.counties.find? (fun c => pyLower c = pyLower n) = none := by
    rw [List.find?_eq_none]
    intro c hc
    simpa using hnomatch c hc
  constructor
  · simp [fermentation_county, hfind]
  · simp [fermentation_county_data, hne, fermentation_county, hfind]

/-- C5 witness: Unknown County resolves to ValueError and a 404 response
on the concrete table, via the unknown-county theorem. -/
theorem C5_unknown_county_not_found_witness :
    fermentation_county sampleCalc3 (.str "Unknown County") sampleData =
      .error (.valueError "County not found in the state data") ∧
    fermentation_county_data sampleCalc3 sampleData (some "Unknown County") =
      ⟨404, [("error", .jstr "County not found")]⟩ :=
  C5_unknown_county_not_found sampleCalc3 sampleData "Unknown County"
    (by decide) (by decide)

/-- C5 and C6 use these degraded tables: the same counties with one of the
two expected columns absent. -/
def sampleDataNoLigno : StateData :=
  { counties := ["Atlantic", "Cape May"], ligno := none, kgph := some [40, 5] }

/-- The sample table without the Kilogram/hr column. -/
def sampleDataNoKgph : StateData :=
  { counties := ["Atlantic", "Cape May"], ligno := some [17, 0], kgph := none }

/-- C6: when the county matches but an expected column is absent,
resolution fails with KeyError, the endpoint answers 500, and in
particular the failure is never the 404 NotFound outcome. -/
theorem C6_schema_error
    (fcalc : ℚ → Except PyExn (ℚ × ℚ × ℚ)) (sd : StateData) (n nm : String)
    (i : ℕ) (hne : n ≠ "")
    (hfind : sd.counties.find? (fun c => pyLower c = pyLower n) = some nm)
    (hidx : sd.counties.findIdx? (fun c => c = nm) = some i) :
    (sd.ligno = none →
      fermentation_county fcalc (.str n) sd =
        .error (.keyError "Column Lignocellulose (dry tons) not found in the dataset.") ∧
      (fermentation_county_data fcalc sd (some n)).status = 500 ∧
      (fermentation_county_data fcalc sd (some n)).status ≠ 404) ∧
    (∀ lcol lt, sd.ligno = some lcol → lcol[i]? = some lt → sd.kgph = none →
      fermentation_county fcalc (.str n) sd =
        .error (.keyError "Column Kilogram/hr not found in the dataset.") ∧
      (fermentation_county_data fcalc sd (some n)).status = 500 ∧
      (fermentation_county_data fcalc sd (some n)).status ≠ 404) := by
  constructor
  · intro hlig
    have hsvc : fermentation_county fcalc (.str n) sd =
        .error (.keyError "Column Lignocellulose (dry tons) not found in the dataset.") := by
      simp [fermentation_county, hfind, hidx, hlig]
    refine ⟨hsvc, ?_, ?_⟩ <;> simp [fermentation_county_data, hne, hsvc]
  · intro lcol lt hlig hlt hkg
    have hsvc : fermentation_county fcalc (.str n) sd =
        .error (.keyError "Column Kilogram/hr not found in the dataset.") := by
      simp [fermentation_county, hfind, hidx, hlig, hlt, hkg]
    refine ⟨hsvc, ?_, ?_⟩ <;> simp [fermentation_county_data, hne, hsvc]

/-- C6 witness: both missing-column failures on concrete tables, via the
schema error theorem. -/
theorem C6_schema_error_witness :
    (fermentation_county sampleCalc3 (.str "cape may") sampleDataNoLigno =
        .error (.keyError "Column Lignocellulose (dry tons) not found in the dataset.") ∧
      (fermentation_county_data sampleCalc3 sampleDataNoLigno (some "cape may")).status = 500 ∧
      (fermentation_county_data sampleCalc3 sampleDataNoLigno (some "cape may")).status ≠ 404) ∧
    (fermentation_county sampleCalc3 (.str "cape may") sampleDataNoKgph =
        .error (.keyError "Column Kilogram/hr not found in the dataset.") ∧
      (fermentation_county_data sampleCalc3 sampleDataNoKgph (some "cape may")).status = 500 ∧
      (fermentation_county_data sampleCalc3 sampleDataNoKgph (some "cape may")).status ≠ 404) :=
  ⟨(C6_schema_error sampleCalc3 sampleDataNoLigno "cape may" "Cape May" 1
      (by decide) (by decide) (by decide)).1 rfl,
    (C6_schema_error sampleCalc3 sampleDataNoKgph "cape may" "Cape May" 1
      (by decide) (by decide) (by decide)).2 [17, 0] 0 rfl (by decide) rfl⟩

/-- C9: a successful county resolution reports as its mass the truncated
Lignocellulose (dry tons) value of the matched row, while the simulation
outputs are produced by invoking the external calculation at the distinct
Kilogram/hr value of that row; the 200 response of the county endpoint
serializes that dry-tons integer in its mass field. -/
theorem C9_county_mass_vs_sim_input
    (fcalc : ℚ → Except PyExn (ℚ × ℚ × ℚ)) (sd : StateData) (n nm : String)
    (i : ℕ) (lcol kcol : List ℚ) (lt kq e p g : ℚ) (hne : n ≠ "")
    (hfind : sd.counties.find? (fun c => pyLower c = pyLower n) = some nm)
    (hidx : sd.counties.findIdx? (fun c => c = nm) = some i)
    (hlig : sd.ligno = some lcol) (hlt : lcol[i]? = some lt)
    (hkg : sd.kgph = some kcol) (hkq : kcol[i]? = some kq)
    (hfc : fcalc kq = .ok (e, p, g)) :
    fermentation_county fcalc (.str n) sd = .ok (nm, truncQ lt, e, p, g) ∧
    fermentation_county_data fcalc sd (some n) =
      ⟨200, [("county_name", .jstr nm), ("mass", .jnum (truncQ lt : ℚ)),
             ("ethanol", .jnum e), ("price", .jnum p), ("gwp", .jnum g)]⟩ := by
  have hsvc := fermentation_county_ok_of fcalc sd n nm i lcol kcol lt kq e p g
    hfind hidx hlig hlt hkg hkq hfc
  exact ⟨hsvc, by simp [fermentation_county_data, hne, hsvc]⟩

/-- C9 witness: for Atlantic in the concrete table the mass field carries
the dry-tons value 17 while the simulation ran at the Kilogram/hr value
40 (visible in the ethanol output of the stand-in calculation), and the
two quantities differ. Applies the mass-versus-simulation theorem. -/
theorem C9_county_mass_vs_sim_input_witness :
    fermentation_county sampleCalc3 (.str "atlantic") sampleData =
      .ok ("Atlantic", truncQ 17, 40, 2, 3) ∧
    fermentation_county_data sampleCalc3 sampleData (some "atlantic") =
      ⟨200, [("county_name", .jstr "Atlantic"), ("mass", .jnum (truncQ 17 : ℚ)),
             ("ethanol", .jnum 40), ("price", .jnum 2), ("gwp", .jnum 3)]⟩ ∧
    ((truncQ 17 : ℚ) ≠ 40 ∧ sampleCalc3 40 = .ok (40, 2, 3)) := by
  have h := C9_county_mass_vs_sim_input sampleCalc3 sampleData "atlantic" "Atlantic" 0
    [17, 0] [40, 5] 17 40 40 2 3 (by decide) (by decide) (by decide)
    rfl (by decide) rfl (by decide) (by rfl)
  refine ⟨h.1, h.2, ?_, by rfl⟩
  have : truncQ 17 = 17 := by
    simp [truncQ]
  rw [this]
  norm_num

/-- C10: for a validated htl calc request, when the first htl_calc
invocation returns a truthy (non-None) result, htl_calc is invoked a
second time with the same converted sludge mass and the 200 response
takes price and gwp from that second invocation, discarding the first
result entirely; and given that the first invocation returns without
raising, the trailing Unexpected error 500 envelope is produced exactly
when that first result is falsy (None). -/
theorem C10_htl_second_call
    (pf : String → Option ℚ) (conv : ℚ → String → ℚ)
    (hcalc : ℕ → ℚ → Except PyExn (Option (ℚ × ℚ)))
    (s u : String) (q : ℚ)
    (hpf : pf s = some q) (hu : u ∈ htlUnits) :
    (∀ r1 p2 g2, hcalc 0 (conv q u) = .ok (some r1) →
      hcalc 1 (conv q u) = .ok (some (p2, g2)) →
      htl_calc_data pf conv hcalc (some s) (some u) =
        .ok ⟨200, [("sludge", .jnum (conv q u)), ("price", .jnum p2),
                   ("gwp", .jnum g2)]⟩) ∧
    (∀ res0, hcalc 0 (conv q u) = .ok res0 →
      (htl_calc_data pf conv hcalc (some s) (some u) =
          .ok ⟨500, [("error", .jstr "Unexpected error")]⟩ ↔ res0 = none)) := by
  constructor
  · intro r1 p2 g2 h0 h1
    simp [htl_calc_data, hpf, hu, h0, h1]
  · intro res0 h0
    rcases res0 with _ | ⟨p1, g1⟩
    · simp [htl_calc_data, hpf, hu, h0]
    · rcases h1 : hcalc 1 (conv q u) with e | res1
      · simp [htl_calc_data, hpf, hu, h0, h1]
      · rcases res1 with _ | ⟨p2, g2⟩
        · simp [htl_calc_data, hpf, hu, h0, h1]
        · simp [htl_calc_data, hpf, hu, h0, h1]

/-- C10 witness: with a stand-in htl_calc whose first invocation yields
the pair (100, 100) and whose second yields (2, 3), the 200 response is
built from the second invocation; applies the second-call theorem. -/
theorem C10_htl_second_call_witness :
    htl_calc_data sampleParse sampleConvert sampleHtlCalc (some "50") (some "kghr") =
      .ok ⟨200, [("sludge", .jnum 50), ("price", .jnum 2), ("gwp", .jnum 3)]⟩ ∧
    (htl_calc_data sampleParse sampleConvert sampleHtlCalc (some "50") (some "kghr") =
        .ok ⟨500, [("error", .jstr "Unexpected error")]⟩ ↔
      (some ((100 : ℚ), (100 : ℚ)) : Option (ℚ × ℚ)) = none) :=
  ⟨(C10_htl_second_call sampleParse sampleConvert sampleHtlCalc "50" "kghr" 50
      (by rfl) (by decide)).1 (100, 100) 2 3 (by rfl) (by rfl),
    (C10_htl_second_call sampleParse sampleConvert sampleHtlCalc "50" "kghr" 50
      (by rfl) (by decide)).2 (some (100, 100)) (by rfl)⟩

/-- C1 witness: the identity law at the concrete value 7, via the
normalizer theorem. -/
theorem C1_fermentation_normalizer_witness :
    fermentation_convert_feedstock_kg_hr (.num 7) (.str "kghr") = .ok 7 :=
  (C1_fermentation_normalizer 7).1

end QSDsan
